import Mathlib

/-!
Shallow embedding of the client-side replica-set routing core
(src/client/dbclient_rs.cpp): the ReplicaSetMonitor (node list, primary
index, round-robin secondary cursor, probe/reconciliation logic) and the
DBClientReplicaSet facade (cached primary/secondary connections, cached
auth credentials, pipelined checkResponse retry logic).

Network interaction (DBClientConnection::isMaster, runCommand, connect,
auth, isFailed) is modelled by an explicit environment of oracles; probes
are numbered by a ghost clock so the oracle may answer differently on
successive probes.  Connections are identified by the address they probe
(monitor-side) or by a numeric id (client-side).  Concurrency is out of
scope: all operations are modelled as sequential state transformers, which
matches the source where every mutation happens under the monitor locks.
-/

deriving instance DecidableEq for Except

namespace MongoRS

/-- Host addresses are compared by value in the source (HostAndPort); we
model them by their textual form host:port. -/
abbrev Addr := String

/-- The fields of an isMaster reply that dbclient_rs.cpp reads:
setName (none when the field is absent or not a string), the role flags,
the optional primary hint, and the optional hosts and passives arrays. -/
structure IsMasterReply where
  setName : Option String
  ismaster : Bool
  secondary : Bool
  hidden : Bool
  primary : Option String
  hosts : Option (List String)
  passives : Option (List String)
deriving DecidableEq

/-- Outcome of one isMaster probe: a reply together with the measured
round-trip time, or an exception (network failure). -/
inductive ProbeResult where
  | reply (o : IsMasterReply) (pingMillis : Nat)
  | ex
deriving DecidableEq

/-- One entry of the members array of a replSetGetStatus reply, as read by
ReplicaSetMonitor::_checkStatus: name, health and state numbers.  The
source reads these as doubles; the comparisons performed (health == 1,
state == 1 or 2) are integral, so we model them as integers. -/
structure StatusMember where
  name : String
  health : Int
  state : Int
deriving DecidableEq

/-- Oracle for the network as seen by one monitor.  probe and status are
keyed by a ghost probe counter (the clock) so that successive probes of
the same address may be answered differently; connectOk says whether a
fresh DBClientConnection::connect to an address succeeds; fuel bounds the
number of iterations of the node loop inside _check (the loop can grow its
own bound by discovering hosts mid-pass, so any terminating execution of
the source is captured by a large enough fuel). -/
structure MonEnv where
  probe : Nat → Addr → ProbeResult
  status : Nat → Addr → Option (List StatusMember)
  connectOk : Addr → Bool
  fuel : Nat

/-- Node record (struct ReplicaSetMonitor::Node).  lastReply is a ghost
field recording the raw reply of the most recent probe of this node,
whether or not its setName matched; lastIsMaster mirrors the source field,
which is only written after the setName check passes.  Initial flag values
are those of a freshly discovered, never probed node.
Modelled from the spec: the Node constructor defaults live in
dbclient_rs.h (not under src/); per the spec, ok is true iff the last
probe succeeded and reported the node usable, hence false at creation. -/
structure Node where
  addr : Addr
  ok : Bool := false
  ismaster : Bool := false
  secondary : Bool := false
  hidden : Bool := false
  pingTimeMillis : Nat := 0
  lastIsMaster : Option IsMasterReply := none
  lastReply : Option IsMasterReply := none
deriving DecidableEq

/-- Modelled from the spec: Node::okForSecondaryQueries is declared in
dbclient_rs.h (not under src/); the spec defines it as
ok and secondary and not hidden. -/
def Node.okForSecondaryQueries (n : Node) : Bool :=
  n.ok && n.secondary && !n.hidden

/-- Monitor state: set name, discovery-ordered node list, primary index
(-1 is the unknown sentinel), round-robin secondary cursor, and the ghost
probe clock. -/
structure MonitorState where
  name : String
  nodes : List Node
  master : Int
  nextSlave : Nat
  clock : Nat
deriving DecidableEq

/-- Errors surfaced by the monitor operations: u c is a uassert with the
stable code c; oob marks an out-of-range vector access the source would
perform (undefined behaviour); fuel marks exhaustion of the modelling
bound (no terminating source execution corresponds to it). -/
inductive MonErr where
  | u (code : Nat)
  | oob
  | fuel
deriving DecidableEq

/-- ReplicaSetMonitor::_find_inlock: index of the first node with the
given address, or -1. -/
def _find (nodes : List Node) (server : Addr) : Int :=
  match nodes.findIdx? (fun n => n.addr == server) with
  | some i => (i : Int)
  | none => -1

/-- Apply f to the node at index i; identity when i is out of range. -/
def updateNodeAt (st : MonitorState) (i : Nat) (f : Node → Node) :
    MonitorState :=
  match st.nodes.get? i with
  | some nd => { st with nodes := st.nodes.set i (f nd) }
  | none => st

/-- Apply f to the node at a possibly negative offset, as the source does
with int nodesOffset; no node is touched when the offset is negative.
(The source performs the write unguarded in the exception branch; every
call site in dbclient_rs.cpp passes a valid index.) -/
def condUpdate (st : MonitorState) (off : Int) (f : Node → Node) :
    MonitorState :=
  if 0 ≤ off then updateNodeAt st off.toNat f else st

/-- ReplicaSetMonitor::notifyFailure: if the given address is the current
primary (master in range and addresses equal), mark it not-ok and clear
master; otherwise leave the state unchanged. -/
def notifyFailure (st : MonitorState) (server : Addr) : MonitorState :=
  if 0 ≤ st.master then
    match st.nodes.get? st.master.toNat with
    | some nd =>
        if server = nd.addr then
          { st with nodes := st.nodes.set st.master.toNat { nd with ok := false },
                    master := -1 }
        else st
    | none => st
  else st

/-- ReplicaSetMonitor::notifySlaveFailure: mark the matching node not-ok
if found; master and nextSlave are untouched. -/
def notifySlaveFailure (st : MonitorState) (server : Addr) : MonitorState :=
  match st.nodes.findIdx? (fun n => n.addr == server) with
  | some x =>
      match st.nodes.get? x with
      | some nd => { st with nodes := st.nodes.set x { nd with ok := false } }
      | none => st
  | none => st

/-- Body of the member loop of ReplicaSetMonitor::_checkStatus: for each
status member naming a known node, set that node ok iff health == 1 and
state is 1 (primary) or 2 (secondary). -/
def checkStatusStep (ns : List Node) (m : StatusMember) : List Node :=
  match ns.findIdx? (fun n => n.addr == m.name) with
  | none => ns
  | some idx =>
      match ns.get? idx with
      | some nd =>
          ns.set idx
            { nd with ok := m.health == (1 : Int) &&
                (m.state == (1 : Int) || m.state == (2 : Int)) }
      | none => ns

/-- Fold of the member step over the status members. -/
def checkStatusFold (nodes : List Node) (members : List StatusMember) :
    List Node :=
  members.foldl checkStatusStep nodes

/-- Body of the host loop of ReplicaSetMonitor::_checkHosts for one host
string: append a fresh node record unless the host is already known.  The
source opens a probe connection and ignores the connect result; the
appended record carries the initial flags either way. -/
def _checkHostsStep (s : MonitorState) (toCheck : String) : MonitorState :=
  if (s.nodes.findIdx? (fun n => n.addr == toCheck)).isSome then s
  else { s with nodes := s.nodes ++ [{ addr := toCheck }] }

/-- ReplicaSetMonitor::_checkHosts: fold the host step over the listed
hosts.  (The double-checked presence test of the source collapses to one
check in this sequential model; the changed flag only feeds the external
config-change hook, which is out of scope.) -/
def _checkHosts (st : MonitorState) (hostList : List String) : MonitorState :=
  hostList.foldl _checkHostsStep st

/-- ReplicaSetMonitor::_checkConnection: probe the connection (oracle
keyed by the ghost clock), reject replies whose setName is missing or
differs from the monitor name (marking the probed node not-ok), otherwise
record ping and role flags, capture the maybePrimary hint, run host
discovery on hosts and passives, then apply _checkStatus.  On a probe
exception the probed node is marked not-ok.  Returns the updated state,
the ismaster flag of the reply (false on rejection or exception), and the
maybePrimary hint (empty string when unset). -/
def _checkConnection (env : MonEnv) (st0 : MonitorState) (connAddr : Addr)
    (nodesOffset : Int) : MonitorState × Bool × String :=
  let tick := st0.clock
  let st := { st0 with clock := st0.clock + 1 }
  match env.probe tick connAddr with
  | ProbeResult.ex =>
      (condUpdate st nodesOffset (fun nd => { nd with ok := false }), false, "")
  | ProbeResult.reply o ping =>
      let st := condUpdate st nodesOffset (fun nd => { nd with lastReply := some o })
      if o.setName ≠ some st.name then
        (condUpdate st nodesOffset (fun nd => { nd with ok := false }), false, "")
      else
        let st := condUpdate st nodesOffset (fun nd =>
          { nd with pingTimeMillis := ping, hidden := o.hidden,
                    secondary := o.secondary, ismaster := o.ismaster,
                    lastIsMaster := some o })
        let mp : String :=
          match o.hosts, o.primary with
          | some _, some p => p
          | _, _ => ""
        let st := match o.hosts with
          | some hs => _checkHosts st hs
          | none => st
        let st := match o.passives with
          | some ps => _checkHosts st ps
          | none => st
        let st := match env.status tick connAddr with
          | some members => { st with nodes := checkStatusFold st.nodes members }
          | none => st
        (st, o.ismaster, mp)

/-- Result of one pass of the node loop of ReplicaSetMonitor::_check:
the state, the triedQuickCheck flag, the newMaster local, and whether the
pass returned early (primary found with checkAllSecondaries false). -/
structure PassRes where
  st : MonitorState
  tqc : Bool
  newMaster : Int
  early : Bool
deriving DecidableEq

/-- Record index i as the master when the probe reported ismaster, as the
assignment _master = i of ReplicaSetMonitor::_check does. -/
def recordMaster (st : MonitorState) (isM : Bool) (i : Nat) : MonitorState :=
  if isM then { st with master := (i : Int) } else st

/-- The node loop of ReplicaSetMonitor::_check, fuelled: probe node i,
record it as master if its reply says ismaster (returning early unless
checkAllSecondaries), and on the first maybePrimary hint naming a known
node, probe that node out of order (the quick check, at most once per
_check).  The loop bound re-reads the node list, which can grow during
the pass; fuel bounds the iterations of this model. -/
def checkPassAux (env : MonEnv) (cas : Bool) :
    Nat → Nat → Bool → Int → MonitorState → Except MonErr PassRes
  | 0, i, tqc, nm, st =>
      if i < st.nodes.length then .error .fuel else .ok ⟨st, tqc, nm, false⟩
  | fuel + 1, i, tqc, nm, st =>
      match st.nodes.get? i with
      | none => .ok ⟨st, tqc, nm, false⟩
      | some nd =>
          let r1 := _checkConnection env st nd.addr (i : Int)
          let st1 := recordMaster r1.1 r1.2.1 i
          let nm1 := if r1.2.1 then (i : Int) else nm
          if r1.2.1 && !cas then .ok ⟨st1, tqc, nm1, true⟩
          else if !tqc && r1.2.2 ≠ "" then
            match st1.nodes.findIdx? (fun n => n.addr == r1.2.2) with
            | some x =>
                match st1.nodes.get? x with
                | some ndx =>
                    let r2 := _checkConnection env st1 ndx.addr (x : Int)
                    let st2 := recordMaster r2.1 r2.2.1 x
                    let nm2 := if r2.2.1 then (x : Int) else nm1
                    if r2.2.1 && !cas then .ok ⟨st2, true, nm2, true⟩
                    else checkPassAux env cas fuel (i + 1) true nm2 st2
                | none => checkPassAux env cas fuel (i + 1) true nm1 st1
            | none => checkPassAux env cas fuel (i + 1) tqc nm1 st1
          else checkPassAux env cas fuel (i + 1) tqc nm1 st1

/-- ReplicaSetMonitor::_check: up to two outer passes of the node loop
(with a 1-second sleep between them, irrelevant here); returns as soon as
a pass found a new master or returned early. -/
def _check (env : MonEnv) (cas : Bool) (st : MonitorState) :
    Except MonErr MonitorState :=
  match checkPassAux env cas env.fuel 0 false (-1) st with
  | .error e => .error e
  | .ok p1 =>
      if p1.early then .ok p1.st
      else if 0 ≤ p1.newMaster then .ok p1.st
      else
        match checkPassAux env cas env.fuel 0 p1.tqc p1.newMaster p1.st with
        | .error e => .error e
        | .ok p2 => .ok p2.st

/-- ReplicaSetMonitor::check: probe the current master first; if it
responds as primary and checkAllSecondaries is false, stop there;
otherwise run the full _check. -/
def check (env : MonEnv) (cas : Bool) (st : MonitorState) :
    Except MonErr MonitorState :=
  if 0 ≤ st.master then
    match st.nodes.get? st.master.toNat with
    | some nd =>
        let r := _checkConnection env st nd.addr st.master
        if r.2.1 && !cas then .ok r.1 else _check env cas r.1
    | none => .error .oob
  else _check env cas st

/-- The slow path of ReplicaSetMonitor::getMaster: run _check(false),
then uassert 10009 unless master is set, and return nodes[master].addr. -/
def getMasterSlow (env : MonEnv) (st : MonitorState) :
    Except MonErr (MonitorState × Addr) :=
  match _check env false st with
  | .error e => .error e
  | .ok st1 =>
      if 0 ≤ st1.master then
        match st1.nodes.get? st1.master.toNat with
        | some nd => .ok (st1, nd.addr)
        | none => .error .oob
      else .error (.u 10009)

/-- ReplicaSetMonitor::getMaster: return the cached primary without any
probing when master is set and that node is still ok; otherwise take the
slow path. -/
def getMaster (env : MonEnv) (st : MonitorState) :
    Except MonErr (MonitorState × Addr) :=
  if 0 ≤ st.master then
    match st.nodes.get? st.master.toNat with
    | some nd => if nd.ok then .ok (st, nd.addr) else getMasterSlow env st
    | none => .error .oob
  else getMasterSlow env st

/-- One pass of the node loop of ReplicaSetMonitor::getSlave, fuelled by
the node count (the list is fixed for the duration of the pass, which the
source runs under the state lock): advance the cursor modulo the node
count, skip the index equal to master, and select the first node that is
ok-for-secondary-queries, or merely ok on the last of the three passes.
Returns the final cursor and the selected index, if any. -/
def slavePassAux (nodes : List Node) (master : Int) (last : Bool) :
    Nat → Nat → Nat → Nat × Option Nat
  | 0, _, ns => (ns, none)
  | fuel + 1, i, ns =>
      if i < nodes.length then
        let ns1 := (ns + 1) % nodes.length
        if (ns1 : Int) = master then slavePassAux nodes master last fuel (i + 1) ns1
        else
          match nodes.get? ns1 with
          | some nd =>
              if nd.okForSecondaryQueries || (nd.ok && last) then (ns1, some ns1)
              else slavePassAux nodes master last fuel (i + 1) ns1
          | none => (ns1, none)
      else (ns, none)

/-- One pass over the whole node list, starting the iteration counter at
zero as the source does. -/
def slavePass (nodes : List Node) (master : Int) (last : Bool) (ns : Nat) :
    Nat × Option Nat :=
  slavePassAux nodes master last nodes.length 0 ns

/-- How getSlave produced its answer: found carries a ghost copy of the
monitor state at the moment the pass selected index idx, together with the
selected address; fallback is the last-resort return of nodes[0] after all
three passes failed. -/
inductive SlaveSel where
  | found (passState : MonitorState) (idx : Nat) (addr : Addr)
  | fallback (addr : Addr)
deriving DecidableEq

/-- The retry loop of ReplicaSetMonitor::getSlave, counting down from 3:
each round runs one pass (the last-pass relaxation fires on the third
round) and, when nothing was selected, a check(false) before the next
round; after the third round the source reads nodes[0], an out-of-range
access when the node list is empty. -/
def getSlaveLoop (env : MonEnv) :
    Nat → MonitorState → Except MonErr (MonitorState × SlaveSel)
  | 0, st =>
      match st.nodes.get? 0 with
      | some nd => .ok (st, .fallback nd.addr)
      | none => .error .oob
  | k + 1, st =>
      match slavePass st.nodes st.master (k == 0) st.nextSlave with
      | (ns1, some idx) =>
          match ({ st with nextSlave := ns1 } : MonitorState).nodes.get? idx with
          | some nd =>
              .ok ({ st with nextSlave := ns1 },
                   .found { st with nextSlave := ns1 } idx nd.addr)
          | none => .error .oob
      | (ns1, none) =>
          match check env false { st with nextSlave := ns1 } with
          | .ok st2 => getSlaveLoop env k st2
          | .error e => .error e

/-- ReplicaSetMonitor::getSlave (no-argument form). -/
def getSlave (env : MonEnv) (st : MonitorState) :
    Except MonErr (MonitorState × SlaveSel) :=
  getSlaveLoop env 3 st

/-- Seed handling of the ReplicaSetMonitor constructor body for one seed:
skip duplicates, skip seeds whose initial connect fails, otherwise append
a node record and probe it at its own index. -/
def ctorAddSeed (env : MonEnv) (st : MonitorState) (seed : Addr) :
    MonitorState :=
  if (st.nodes.findIdx? (fun n => n.addr == seed)).isSome then st
  else if !env.connectOk seed then st
  else
    let st1 := { st with nodes := st.nodes ++ [{ addr := seed }] }
    (_checkConnection env st1 seed ((st1.nodes.length - 1 : Nat) : Int)).1

/-- The ReplicaSetMonitor constructor: requires a non-empty seed list
(uassert 13642), then folds ctorAddSeed over the seeds starting from an
empty node list with master = -1 and nextSlave = 0. -/
def mkMonitor (env : MonEnv) (name : String) (servers : List Addr) :
    Except MonErr MonitorState :=
  if servers.length > 0 then
    .ok (servers.foldl (ctorAddSeed env)
      { name := name, nodes := [], master := -1, nextSlave := 0, clock := 0 })
  else .error (.u 13642)

/-- The process-wide registry: the name-to-monitor map (association list
in insertion order; the source uses an ordered map, irrelevant to the
properties proved here) and the store of monitor states addressed by
handle id. -/
structure RegistryState where
  sets : List (String × Nat)
  store : List MonitorState
deriving DecidableEq

/-- Handle lookup by set name. -/
def lookupSet (reg : RegistryState) (name : String) : Option Nat :=
  (reg.sets.find? (fun p => p.1 == name)).map Prod.snd

/-- ReplicaSetMonitor::get(name, servers): return the existing handle for
the name if present (the seed list is ignored in that case); otherwise
construct a monitor from the seeds and register it under a fresh handle. -/
def ReplicaSetMonitor.get (env : MonEnv) (reg : RegistryState) (name : String)
    (servers : List Addr) : Except MonErr (RegistryState × Nat) :=
  match lookupSet reg name with
  | some id => .ok (reg, id)
  | none =>
      match mkMonitor env name servers with
      | .error e => .error e
      | .ok m =>
          .ok ({ sets := reg.sets ++ [(name, reg.store.length)],
                 store := reg.store ++ [m] }, reg.store.length)

/-- The registry-facing operations of the public API: creating-or-fetching
a monitor, and the lookup-only overload. -/
inductive RegOp where
  | opGet (env : MonEnv) (name : String) (servers : List Addr)
  | opLookup (name : String)

/-- Effect of one registry operation on the registry (a failed get leaves
the registry unchanged, as the exception propagates before insertion). -/
def regStep (reg : RegistryState) : RegOp → RegistryState
  | .opGet env name servers =>
      match ReplicaSetMonitor.get env reg name servers with
      | .ok p => p.1
      | .error _ => reg
  | .opLookup _ => reg

/-- Run a sequence of registry operations. -/
def regRun (reg : RegistryState) (ops : List RegOp) : RegistryState :=
  ops.foldl regStep reg

/-- One cached credential (struct AuthInfo). -/
structure AuthInfo where
  dbname : String
  username : String
  pwd : String
  digestPassword : Bool
deriving DecidableEq

/-- The wire opcode for a query message; checkResponse compares the
recorded lastOp against it. -/
def dbQuery : Int := 2004

/-- Pipelining state of the facade (struct LazyState).
Modelled from the spec: the member defaults live in dbclient_rs.h (not
under src/); per the spec the reset state has no last client and a zero
retry counter. -/
structure LazyState where
  _lastOp : Int := -1
  _slaveOk : Bool := false
  _retries : Nat := 0
  _lastClient : Option Nat := none
deriving DecidableEq

/-- DBClientReplicaSet state: the shared monitor, the cached primary and
secondary addresses and connections (connections are numeric ids issued
from nextConnId), the cached credentials, and the pipeline state. -/
structure RSClientState where
  monitor : MonitorState
  masterHost : Addr := ""
  masterConn : Option Nat := none
  slaveHost : Addr := ""
  slaveConn : Option Nat := none
  auths : List AuthInfo := []
  lazy : LazyState := {}
  nextConnId : Nat := 0
deriving DecidableEq

/-- Oracle for the network as seen by the facade: the monitor oracle,
plus connect success per address, the isFailed flag per connection id,
and the auth verdict of the node at an address for a credential. -/
structure ClientEnv where
  mon : MonEnv
  connectOk : Addr → Bool
  isFailed : Nat → Bool
  authOk : Addr → AuthInfo → Bool

/-- Ghost record of the externally visible calls checkResponse makes. -/
inductive Event where
  | isntSecondaryCalled
  | isntMasterCalled
  | warnedUnknownClient
  | delegatedTo (conn : Nat)
deriving DecidableEq

/-- DBClientReplicaSet::isntMaster: notify the monitor that the cached
primary failed and drop the cached primary connection. -/
def isntMaster (st : RSClientState) : RSClientState :=
  { st with monitor := notifyFailure st.monitor st.masterHost,
            masterConn := none }

/-- DBClientReplicaSet::isntSecondary: notify the monitor that the cached
secondary failed and drop the cached secondary connection. -/
def isntSecondary (st : RSClientState) : RSClientState :=
  { st with monitor := notifySlaveFailure st.monitor st.slaveHost,
            slaveConn := none }

/-- DBClientReplicaSet::_auth: replay every cached credential on a new
connection; failures are logged only, so the client state is unchanged. -/
def _authReplay (st : RSClientState) : RSClientState := st

/-- Tail of DBClientReplicaSet::checkMaster once the cached connection
cannot be reused: ask the monitor for the primary again, open a fresh
connection to it (uassert 13639 on connect failure, after notifying the
monitor; the post-throw state is not observable here since the exception
propagates), and replay the cached credentials. -/
def checkMasterReconnect (env : ClientEnv) (st : RSClientState) :
    Except MonErr (RSClientState × Nat) :=
  match getMaster env.mon st.monitor with
  | .error e => .error e
  | .ok (mon2, h2) =>
      let cid := st.nextConnId
      let st1 := { st with monitor := mon2, masterHost := h2,
                           masterConn := some cid, nextConnId := cid + 1 }
      if env.connectOk h2 then .ok (_authReplay st1, cid)
      else .error (.u 13639)

/-- DBClientReplicaSet::checkMaster: ask the monitor for the primary; if
it matches the cached primary and that connection has not failed, reuse
it; if the cached connection has failed, notify the monitor first; in all
other cases reconnect. -/
def checkMaster (env : ClientEnv) (st : RSClientState) :
    Except MonErr (RSClientState × Nat) :=
  match getMaster env.mon st.monitor with
  | .error e => .error e
  | .ok (mon1, h) =>
      let st0 := { st with monitor := mon1 }
      match st0.masterConn with
      | some mc =>
          if h = st0.masterHost then
            if !env.isFailed mc then .ok (st0, mc)
            else
              checkMasterReconnect env
                { st0 with monitor := notifyFailure st0.monitor st0.masterHost }
          else checkMasterReconnect env st0
      | none => checkMasterReconnect env st0

/-- DBClientReplicaSet::auth: authenticate against the primary first;
only when the primary accepts the credential is it appended to the cached
auths list. -/
def DBClientReplicaSet.auth (env : ClientEnv) (st : RSClientState)
    (a : AuthInfo) : Except MonErr (RSClientState × Bool) :=
  match checkMaster env st with
  | .error e => .error e
  | .ok (st1, _m) =>
      if env.authOk st1.masterHost a then
        .ok ({ st1 with auths := st1.auths ++ [a] }, true)
      else .ok (st1, false)

/-- The accessor view of the single returned document that checkResponse
reads: whether hasErrField holds of it, and its code field (none when the
field is absent, eoo).  The source reads code with Int() only after
checking it is present. -/
structure DocInfo where
  hasErrField : Bool := false
  code : Option Int := none
deriving DecidableEq

/-- The empty document the source builds when nReturned is not 1. -/
def emptyDoc : DocInfo := {}

/-- The error-document test of checkResponse: hasErrField holds and the
code field is present and equals 13436 (not master or secondary). -/
def carriesNotMasterOrSecondary (d : DocInfo) : Bool :=
  d.hasErrField && d.code == some (13436 : Int)

/-- DBClientReplicaSet::checkResponse.  With no retry out-parameter
(retryProvided = false) it only delegates: to the last pipelined
connection when one is recorded, else to the primary via checkMaster.
With a retry out-parameter it reports false unless the pipelined op was a
slave-ok query and either nReturned = -1 or the single returned document
carries code 13436; in that error case it calls isntSecondary or
isntMaster according to which cached connection the last say used, and
signals a retry (incrementing the counter) only while retries < 3.
The doc argument stands for BSONObj(data) and is only consulted when
nReturned = 1, as in the source.  The returned list records the calls
made, newest last. -/
def checkResponse (env : ClientEnv) (st : RSClientState) (doc : DocInfo)
    (nReturned : Int) (retryProvided : Bool) :
    Except MonErr (RSClientState × Bool × List Event) :=
  if !retryProvided then
    match st.lazy._lastClient with
    | some c => .ok (st, false, [.delegatedTo c])
    | none =>
        match checkMaster env st with
        | .error e => .error e
        | .ok (st1, m) => .ok (st1, false, [.delegatedTo m])
  else
    match st.lazy._lastClient with
    | none => .ok (st, false, [])
    | some lc =>
        if nReturned ≠ 1 ∧ nReturned ≠ -1 then .ok (st, false, [])
        else
          let dataObj := if nReturned = 1 then doc else emptyDoc
          if st.lazy._lastOp = dbQuery ∧ st.lazy._slaveOk then
            if nReturned = -1 ∨ carriesNotMasterOrSecondary dataObj then
              let p : RSClientState × List Event :=
                if st.slaveConn = some lc then
                  (isntSecondary st, [Event.isntSecondaryCalled])
                else if st.masterConn = some lc then
                  (isntMaster st, [Event.isntMasterCalled])
                else (st, [Event.warnedUnknownClient])
              if p.1.lazy._retries < 3 then
                .ok ({ p.1 with
                        lazy := { p.1.lazy with
                                   _retries := p.1.lazy._retries + 1 } },
                     true, p.2)
              else .ok (p.1, false, p.2)
            else .ok (st, false, [])
          else .ok (st, false, [])

/-- The master index is below the node count (the invariant the source
maintains for its unchecked vector accesses through master). -/
def masterInBounds (st : MonitorState) : Prop :=
  st.master < (st.nodes.length : Int)

/-- Relation between a monitor state and any state a probe step produces
from it: the node list only grows and the master index is untouched
(probing itself never writes master; only the loop of _check does). -/
def grows (s t : MonitorState) : Prop :=
  s.nodes.length ≤ t.nodes.length ∧ t.master = s.master

/-!
Concrete fixtures: small replica-set topologies and network oracles used
by the witnesses and counterexamples below.
-/

/-- An isMaster reply of a healthy primary of set rs, with no hosts array
and no primary hint. -/
def replyPrimaryRs : IsMasterReply :=
  { setName := some "rs", ismaster := true, secondary := false,
    hidden := false, primary := none, hosts := none, passives := none }

/-- An isMaster reply of a node that belongs to a different set. -/
def replyOther : IsMasterReply :=
  { setName := some "other", ismaster := false, secondary := true,
    hidden := false, primary := none, hosts := none, passives := none }

/-- An isMaster reply of a healthy secondary of set rs. -/
def replySecRs : IsMasterReply :=
  { setName := some "rs", ismaster := false, secondary := true,
    hidden := false, primary := none, hosts := none, passives := none }

/-- A current, ok primary node. -/
def ndA1 : Node := { addr := "a:27017", ok := true, ismaster := true }

/-- A known secondary that is currently not ok. -/
def ndB1 : Node := { addr := "b:27017", ok := false, secondary := true }

/-- Two-node state whose primary a:27017 is healthy and whose only
secondary is not ok. -/
def stC1 : MonitorState :=
  { name := "rs", nodes := [ndA1, ndB1], master := 0, nextSlave := 0,
    clock := 0 }

/-- Oracle under which every probe reports a healthy primary of rs and
replSetGetStatus always fails. -/
def envC1 : MonEnv :=
  { probe := fun _ _ => .reply replyPrimaryRs 1,
    status := fun _ _ => none,
    connectOk := fun _ => true,
    fuel := 8 }

/-- Primary of the four-node rotation topology. -/
def nP : Node := { addr := "p:1", ok := true, ismaster := true }

/-- First secondary of the rotation topology. -/
def nB : Node := { addr := "b:1", ok := true, secondary := true }

/-- Second secondary of the rotation topology. -/
def nC : Node := { addr := "c:1", ok := true, secondary := true }

/-- Third secondary of the rotation topology. -/
def nD : Node := { addr := "d:1", ok := true, secondary := true }

/-- Rotation topology: primary p:1 at index 0, secondaries b:1, c:1, d:1
all ok for secondary queries, cursor at its initial position. -/
def stS3 : MonitorState :=
  { name := "rs", nodes := [nP, nB, nC, nD], master := 0, nextSlave := 0,
    clock := 0 }

/-- Rotation topology after one selection (cursor on b:1). -/
def stS3a : MonitorState := { stS3 with nextSlave := 1 }

/-- Rotation topology after two selections (cursor on c:1). -/
def stS3b : MonitorState := { stS3 with nextSlave := 2 }

/-- Rotation topology after three selections (cursor on d:1). -/
def stS3c : MonitorState := { stS3 with nextSlave := 3 }

/-- Rotation topology after four selections (cursor back on b:1). -/
def stS3d : MonitorState := { stS3 with nextSlave := 1 }

/-- Two-node state with no known master, both nodes currently ok. -/
def stC4 : MonitorState :=
  { name := "rs",
    nodes := [{ addr := "a:27017", ok := true, secondary := true },
              { addr := "b:27017", ok := true, secondary := true }],
    master := -1, nextSlave := 0, clock := 0 }

/-- Oracle for the set-identity scenario: the first probe (tick 0, node
a:27017) answers with setName other; the second probe (tick 1, node
b:27017) answers as a healthy rs secondary and its replSetGetStatus lists
a:27017 as health 1, state 2. -/
def envC4 : MonEnv :=
  { probe := fun t _ => if t == 0 then .reply replyOther 1
                        else .reply replySecRs 1,
    status := fun t _ =>
      if t == 1 then some [{ name := "a:27017", health := 1, state := 2 }]
      else none,
    connectOk := fun _ => true,
    fuel := 8 }

/-- State after the mismatched probe of node a:27017. -/
def stC4a : MonitorState := (_checkConnection envC4 stC4 "a:27017" 0).1

/-- State after the subsequent probe of node b:27017, whose status reply
resurrects node a:27017. -/
def stC4b : MonitorState := (_checkConnection envC4 stC4a "b:27017" 1).1

/-- Oracle under which every connect fails and every probe raises. -/
def envFail : MonEnv :=
  { probe := fun _ _ => .ex, status := fun _ _ => none,
    connectOk := fun _ => false, fuel := 8 }

/-- Monitor state with an empty node list, as produced by the constructor
when every seed connect fails. -/
def stEmpty : MonitorState :=
  { name := "rs", nodes := [], master := -1, nextSlave := 0, clock := 0 }

/-- A single never-usable node. -/
def ndW : Node := { addr := "w:1", ok := false }

/-- Single-node state with no master and the node not ok. -/
def stW : MonitorState :=
  { name := "rs", nodes := [ndW], master := -1, nextSlave := 0, clock := 0 }

/-- Registry holding the monitor of set rs under handle 0. -/
def reg1 : RegistryState := { sets := [("rs", 0)], store := [stEmpty] }

/-- Client-side oracle over the healthy rotation topology: connects
succeed, no connection is failed, every auth is accepted. -/
def envCl : ClientEnv :=
  { mon := envC1, connectOk := fun _ => true, isFailed := fun _ => false,
    authOk := fun _ _ => true }

/-- Client-side oracle whose primary rejects every credential. -/
def envRej : ClientEnv :=
  { mon := envC1, connectOk := fun _ => true, isFailed := fun _ => false,
    authOk := fun _ _ => false }

/-- An error document carrying the not-master-or-secondary code. -/
def docErr : DocInfo := { hasErrField := true, code := some 13436 }

/-- Facade state after a pipelined slave-ok query whose last say went to
the cached secondary connection (id 1, host b:1). -/
def stCR : RSClientState :=
  { monitor := stS3, masterHost := "p:1", masterConn := some 0,
    slaveHost := "b:1", slaveConn := some 1, auths := [],
    lazy := { _lastOp := dbQuery, _slaveOk := true, _retries := 0,
              _lastClient := some 1 },
    nextConnId := 2 }

/-- A cached credential. -/
def credX : AuthInfo :=
  { dbname := "db0", username := "u0", pwd := "p0", digestPassword := true }

/-- A credential the primary will reject under envRej. -/
def credY : AuthInfo :=
  { dbname := "db1", username := "u1", pwd := "p1", digestPassword := false }

/-- Facade state bound to the healthy primary p:1 with one cached
credential. -/
def stAuth : RSClientState :=
  { monitor := stS3, masterHost := "p:1", masterConn := some 0,
    slaveHost := "", slaveConn := none, auths := [credX], lazy := {},
    nextConnId := 1 }

/-- The facade state stCR after checkResponse handled a pipelined error
reply from the cached secondary: b:1 marked not-ok in the monitor, the
cached secondary connection dropped, retries incremented. -/
def stCR2 : RSClientState :=
  { stCR with
      monitor := { stS3 with nodes := [nP, { nB with ok := false }, nC, nD] },
      slaveConn := none,
      lazy := { stCR.lazy with _retries := 1 } }

/-!
Helper lemmas about the node-list updates.
-/

theorem updateNodeAt_get_self {st : MonitorState} {i : Nat} {f : Node → Node}
    {nd : Node} (h : st.nodes.get? i = some nd) :
    (updateNodeAt st i f).nodes.get? i = some (f nd) := by
  have hlt : i < st.nodes.length := (List.get?_eq_some.mp h).1
  have hel : st.nodes[i] = nd := by
    have h2 := h
    rw [List.get?_eq_getElem?, List.getElem?_eq_getElem hlt] at h2
    exact Option.some.inj h2
  simp [updateNodeAt, h, List.get?_eq_getElem?, List.getElem?_set, hlt, hel]

theorem updateNodeAt_get_other {st : MonitorState} {i j : Nat} {f : Node → Node}
    (hne : j ≠ i) : (updateNodeAt st i f).nodes.get? j = st.nodes.get? j := by
  unfold updateNodeAt
  cases h : st.nodes.get? i with
  | none => rfl
  | some nd => simp [List.get?_eq_getElem?, List.getElem?_set, Ne.symm hne]

theorem updateNodeAt_master (st : MonitorState) (i : Nat) (f : Node → Node) :
    (updateNodeAt st i f).master = st.master := by
  unfold updateNodeAt; cases st.nodes.get? i <;> rfl

theorem updateNodeAt_nextSlave (st : MonitorState) (i : Nat) (f : Node → Node) :
    (updateNodeAt st i f).nextSlave = st.nextSlave := by
  unfold updateNodeAt; cases st.nodes.get? i <;> rfl

theorem updateNodeAt_name (st : MonitorState) (i : Nat) (f : Node → Node) :
    (updateNodeAt st i f).name = st.name := by
  unfold updateNodeAt; cases st.nodes.get? i <;> rfl

theorem updateNodeAt_length (st : MonitorState) (i : Nat) (f : Node → Node) :
    (updateNodeAt st i f).nodes.length = st.nodes.length := by
  unfold updateNodeAt
  cases st.nodes.get? i with
  | none => rfl
  | some nd => simp

theorem condUpdate_get_self {st : MonitorState} {off : Nat} {f : Node → Node}
    {nd : Node} (h : st.nodes.get? off = some nd) :
    (condUpdate st (off : Int) f).nodes.get? off = some (f nd) := by
  rw [condUpdate, if_pos (Int.ofNat_nonneg off)]
  exact updateNodeAt_get_self h

theorem condUpdate_get_other (off : Nat) {st : MonitorState} {j : Nat}
    {f : Node → Node} (hne : j ≠ off) :
    (condUpdate st (off : Int) f).nodes.get? j = st.nodes.get? j := by
  rw [condUpdate, if_pos (Int.ofNat_nonneg off)]
  exact updateNodeAt_get_other hne

theorem condUpdate_master (st : MonitorState) (off : Int) (f : Node → Node) :
    (condUpdate st off f).master = st.master := by
  unfold condUpdate; split
  · exact updateNodeAt_master ..
  · rfl

theorem condUpdate_nextSlave (st : MonitorState) (off : Int) (f : Node → Node) :
    (condUpdate st off f).nextSlave = st.nextSlave := by
  unfold condUpdate; split
  · exact updateNodeAt_nextSlave ..
  · rfl

theorem condUpdate_name (st : MonitorState) (off : Int) (f : Node → Node) :
    (condUpdate st off f).name = st.name := by
  unfold condUpdate; split
  · exact updateNodeAt_name ..
  · rfl

theorem condUpdate_length (st : MonitorState) (off : Int) (f : Node → Node) :
    (condUpdate st off f).nodes.length = st.nodes.length := by
  unfold condUpdate; split
  · exact updateNodeAt_length ..
  · rfl

/-!
C6 — notifyFailure.
-/

/-- C6: notifyFailure sets nodes[master].ok to false and resets master to
-1 exactly when master is a valid index and the given address equals
nodes[master].addr; in every other case (no current primary, master out
of range, or a non-primary address) the state — every node flag, master,
and nextSlave — is left unchanged. -/
theorem C6_notifyFailure_effect (st : MonitorState) (a : Addr) :
    (∀ nd, 0 ≤ st.master → st.nodes.get? st.master.toNat = some nd →
      a = nd.addr →
      notifyFailure st a =
        { st with nodes := st.nodes.set st.master.toNat { nd with ok := false },
                  master := -1 }) ∧
    ((0 ≤ st.master → ∀ nd, st.nodes.get? st.master.toNat = some nd →
        a ≠ nd.addr) →
      notifyFailure st a = st) := by
  constructor
  · intro nd hm hnd ha
    unfold notifyFailure
    rw [if_pos hm, hnd]
    dsimp only
    rw [if_pos ha]
  · intro hno
    unfold notifyFailure
    split
    · next hm =>
        cases h : st.nodes.get? st.master.toNat with
        | none => rfl
        | some nd =>
            dsimp only
            rw [if_neg (hno hm nd h)]
    · rfl

/-- Witness for C6: in the rotation topology, notifying failure of the
primary address p:1 marks node 0 not-ok and clears master. -/
theorem C6_notifyFailure_effect_witness :
    notifyFailure stS3 "p:1" =
      { stS3 with nodes := stS3.nodes.set 0 { nP with ok := false },
                  master := -1 } :=
  (C6_notifyFailure_effect stS3 "p:1").1 nP (by decide) (by decide) rfl

/-!
C1 — getSlave and the current primary.
-/

/-- C1 counterexample: in the two-node state stC1 (primary a:27017
healthy, secondary b:27017 not ok) under oracle envC1, getSlave finds no
candidate in any of its three passes and falls back to nodes[0], which is
the address of the current primary, although the set is not degenerate:
it has two nodes, and at return master still points at a:27017, which is
still ok and ismaster. -/
theorem C1_getSlave_counterexample :
    (getSlave envC1 stC1).toOption.map (fun p => p.2) =
      some (SlaveSel.fallback "a:27017") ∧
    stC1.nodes.length = 2 ∧
    stC1.master = 0 ∧
    (stC1.nodes.get? 0).map Node.addr = some "a:27017" ∧
    (getSlave envC1 stC1).toOption.map (fun p => p.1.master) = some 0 ∧
    (getSlave envC1 stC1).toOption.map
        (fun p => (p.1.nodes.get? 0).map
          (fun n => (n.addr, n.ok, n.ismaster))) =
      some (some ("a:27017", true, true)) := by
  decide

/-- A getSlave pass only ever selects the index it leaves the cursor on,
that index differs from master, and the node there is ok-for-secondary
queries, or merely ok when the last-pass relaxation is active. -/
theorem slavePassAux_sel {nodes : List Node} {master : Int} {last : Bool} :
    ∀ fuel i ns ns1 idx,
      slavePassAux nodes master last fuel i ns = (ns1, some idx) →
      ns1 = idx ∧ (idx : Int) ≠ master ∧
      ∃ nd, nodes.get? idx = some nd ∧
        (nd.okForSecondaryQueries = true ∨ (nd.ok = true ∧ last = true))
  | 0, i, ns, ns1, idx, h => by simp [slavePassAux] at h
  | fuel + 1, i, ns, ns1, idx, h => by
      rw [slavePassAux] at h
      by_cases hi : i < nodes.length
      · rw [if_pos hi] at h
        by_cases hm : (((ns + 1) % nodes.length : Nat) : Int) = master
        · rw [if_pos hm] at h
          exact slavePassAux_sel fuel (i + 1) ((ns + 1) % nodes.length) ns1 idx h
        · rw [if_neg hm] at h
          cases hg : nodes.get? ((ns + 1) % nodes.length) with
          | none => rw [hg] at h; simp at h
          | some nd =>
              rw [hg] at h
              dsimp only at h
              by_cases hsel : (nd.okForSecondaryQueries || (nd.ok && last)) = true
              · rw [if_pos hsel] at h
                have h1 : (ns + 1) % nodes.length = ns1 := congrArg Prod.fst h
                have h2 : some ((ns + 1) % nodes.length) = some idx :=
                  congrArg Prod.snd h
                have h3 : (ns + 1) % nodes.length = idx := Option.some.inj h2
                subst h3
                refine ⟨h1.symm, hm, nd, hg, ?_⟩
                rcases Bool.or_eq_true .. |>.mp hsel with hq | hq
                · exact Or.inl hq
                · rcases Bool.and_eq_true .. |>.mp hq with ⟨ho, hl⟩
                  exact Or.inr ⟨ho, hl⟩
              · rw [if_neg hsel] at h
                exact slavePassAux_sel fuel (i + 1) ((ns + 1) % nodes.length) ns1 idx h
      · rw [if_neg hi] at h; simp at h

/-- Selection facts for the full getSlave loop: a pass-selected node is
never at index master of the state the pass ran in, and a fallback
return carries the address of nodes[0] of the final state. -/
theorem getSlaveLoop_sel :
    ∀ (k : Nat) (env : MonEnv) (st st1 : MonitorState) (sel : SlaveSel),
      getSlaveLoop env k st = .ok (st1, sel) →
      (∀ ps idx a, sel = .found ps idx a →
          (idx : Int) ≠ ps.master ∧
          (ps.nodes.get? idx).map Node.addr = some a ∧
          (ps.nodes.get? idx).map
            (fun nd => nd.okForSecondaryQueries || nd.ok) = some true) ∧
      (∀ a, sel = .fallback a →
          (st1.nodes.get? 0).map Node.addr = some a)
  | 0, env, st, st1, sel, h => by
      rw [getSlaveLoop] at h
      cases hg : st.nodes.get? 0 with
      | none => rw [hg] at h; cases h
      | some nd =>
          rw [hg] at h
          have h' := Except.ok.inj h
          have hst : st = st1 := congrArg Prod.fst h'
          have hsel : SlaveSel.fallback nd.addr = sel := congrArg Prod.snd h'
          constructor
          · intro ps idx a hfa; rw [hfa] at hsel; cases hsel
          · intro a hfb
            rw [hfb] at hsel
            have : nd.addr = a := SlaveSel.fallback.inj hsel
            subst this; rw [← hst, hg]; rfl
  | k + 1, env, st, st1, sel, h => by
      rw [getSlaveLoop] at h
      rcases hsp : slavePass st.nodes st.master (k == 0) st.nextSlave with
        ⟨ns1, osel⟩
      rw [hsp] at h
      cases osel with
      | some idx =>
          dsimp only at h
          cases hg : st.nodes.get? idx with
          | none => rw [hg] at h; cases h
          | some nd =>
              rw [hg] at h
              dsimp only at h
              have h' := Except.ok.inj h
              have hsel2 :
                  SlaveSel.found { st with nextSlave := ns1 } idx nd.addr = sel :=
                congrArg Prod.snd h'
              have hfacts := slavePassAux_sel st.nodes.length 0 st.nextSlave ns1 idx hsp
              constructor
              · intro ps idx2 a hfa
                rw [hfa] at hsel2
                obtain ⟨hps, hidx, haddr⟩ := SlaveSel.found.inj hsel2
                subst hidx; subst haddr
                rw [← hps]
                refine ⟨hfacts.2.1, ?_, ?_⟩
                · show (st.nodes.get? idx).map Node.addr = some nd.addr
                  rw [hg]; rfl
                · show (st.nodes.get? idx).map
                      (fun nd => nd.okForSecondaryQueries || nd.ok) = some true
                  obtain ⟨nd', hnd', hcond⟩ := hfacts.2.2
                  have hnn : nd' = nd := Option.some.inj (hnd'.symm.trans hg)
                  subst hnn
                  rw [hg]
                  rcases hcond with hq | hq
                  · simp [hq]
                  · simp [hq.1]
              · intro a hfb; rw [hfb] at hsel2; cases hsel2
      | none =>
          dsimp only at h
          cases hc : check env false { st with nextSlave := ns1 } with
          | error e => rw [hc] at h; cases h
          | ok st2 =>
              rw [hc] at h
              exact getSlaveLoop_sel k env st2 st1 sel h

/-- C1 (amended): each of the three passes of getSlave skips the node at
index master — a pass-selected node is never at the master index of the
state the pass ran in, and it is ok-for-secondary-queries or at least ok —
and only when all three passes find no candidate does getSlave return
nodes[0] as a last resort; that last-resort node can be the address of the
current primary even when the set is not degenerate (see the
counterexample). -/
theorem C1_getSlave_selection (env : MonEnv) (st st1 : MonitorState)
    (sel : SlaveSel) (h : getSlave env st = .ok (st1, sel)) :
    (∀ ps idx a, sel = .found ps idx a →
        (idx : Int) ≠ ps.master ∧
        (ps.nodes.get? idx).map Node.addr = some a ∧
        (ps.nodes.get? idx).map
          (fun nd => nd.okForSecondaryQueries || nd.ok) = some true) ∧
    (∀ a, sel = .fallback a →
        (st1.nodes.get? 0).map Node.addr = some a) :=
  getSlaveLoop_sel 3 env st st1 sel h

/-- Witness for C1 (amended): on the single-node never-ok state stW all
passes fail and the fallback returns the address of nodes[0]. -/
theorem C1_getSlave_selection_witness :
    getSlave envFail stW = .ok ({ stW with clock := 6 }, .fallback "w:1") ∧
    (({ stW with clock := 6 } : MonitorState).nodes.get? 0).map Node.addr =
      some "w:1" :=
  ⟨by decide,
   (C1_getSlave_selection envFail stW { stW with clock := 6 }
      (.fallback "w:1") (by decide)).2 "w:1" rfl⟩

/-!
C5 — round-robin secondary selection.
-/

/-- C5: secondary selection is round-robin.  First, in the concrete
topology [p:1 primary, b:1, c:1, d:1 all ok-for-secondary-queries], four
successive getSlave calls starting from the initial cursor select b:1,
c:1, d:1, b:1, advancing nextSlave to 1, 2, 3, 1, under every network
oracle (the first pass always succeeds, so no probing happens).  Second,
in general a non-final pass advances the cursor modulo the node count and
selects only a node that is not at index master and passes
okForSecondaryQueries. -/
theorem C5_round_robin :
    (∀ env : MonEnv,
      getSlave env stS3 = .ok (stS3a, .found stS3a 1 "b:1") ∧
      getSlave env stS3a = .ok (stS3b, .found stS3b 2 "c:1") ∧
      getSlave env stS3b = .ok (stS3c, .found stS3c 3 "d:1") ∧
      getSlave env stS3c = .ok (stS3d, .found stS3d 1 "b:1")) ∧
    (∀ (nodes : List Node) (master : Int) (fuel i ns ns1 idx : Nat),
      slavePassAux nodes master false fuel i ns = (ns1, some idx) →
      ns1 = idx ∧ (idx : Int) ≠ master ∧
      (nodes.get? idx).map Node.okForSecondaryQueries = some true) := by
  constructor
  · intro env
    exact ⟨rfl, rfl, rfl, rfl⟩
  · intro nodes master fuel i ns ns1 idx h
    obtain ⟨h1, h2, nd, hnd, hcond⟩ := slavePassAux_sel fuel i ns ns1 idx h
    refine ⟨h1, h2, ?_⟩
    rw [hnd]
    rcases hcond with hq | hq
    · simp [hq]
    · cases hq.2

/-- Witness for C5: the first rotation step under the concrete oracle
envC1, and the pass-level selection fact at the concrete pass that picked
index 1. -/
theorem C5_round_robin_witness :
    getSlave envC1 stS3 = .ok (stS3a, .found stS3a 1 "b:1") ∧
    ((1 : Nat) = 1 ∧ ((1 : Nat) : Int) ≠ 0 ∧
      (([nP, nB, nC, nD].get? 1).map Node.okForSecondaryQueries = some true)) :=
  ⟨(C5_round_robin.1 envC1).1,
   C5_round_robin.2 [nP, nB, nC, nD] 0 4 0 0 1 1 (by decide)⟩

/-!
C4 — set identity.
-/

/-- The mismatch branch of _checkConnection in closed form: when the
probe reply has a setName missing or different from the monitor name, the
result is exactly the clock bump, the ghost lastReply update, and the
ok := false marking of the probed node, with isMaster false and an empty
maybePrimary. -/
theorem _checkConnection_mismatch_eq (env : MonEnv) (st : MonitorState)
    (connAddr : Addr) (off : Int) (o : IsMasterReply) (ping : Nat)
    (hp : env.probe st.clock connAddr = .reply o ping)
    (hm : o.setName ≠ some st.name) :
    _checkConnection env st connAddr off =
      (condUpdate (condUpdate { st with clock := st.clock + 1 } off
          (fun nd => { nd with lastReply := some o })) off
          (fun nd => { nd with ok := false }), false, "") := by
  unfold _checkConnection
  simp only [hp]
  rw [if_pos ?hc]
  case hc =>
    rw [condUpdate_name]
    exact hm

/-- C4 counterexample: starting from stC4 (both nodes ok), the probe of
node a:27017 answers with setName other and the node is marked not-ok and
the call returns false — but the subsequent probe of node b:27017, whose
replSetGetStatus reply lists a:27017 with health 1 and state 2, re-marks
node a:27017 ok = true while its last reply still carries the mismatched
set name, refuting the claimed invariant over sequences of probe and
status updates. -/
theorem C4_set_identity_counterexample :
    (_checkConnection envC4 stC4 "a:27017" 0).2.1 = false ∧
    (stC4a.nodes.get? 0).map Node.ok = some false ∧
    (stC4b.nodes.get? 0).map Node.ok = some true ∧
    (stC4b.nodes.get? 0).map Node.lastReply = some (some replyOther) ∧
    replyOther.setName ≠ some stC4b.name := by
  decide

/-- C4 (amended): a probe whose reply lacks the monitor set name or
carries a different one marks the probed node not-ok and returns false,
leaving every other node, master and nextSlave unchanged; this holds per
probe, but it is not an invariant over sequences, because a later
replSetGetStatus seen through another node can re-mark the node ok (see
the counterexample). -/
theorem C4_mismatch_marks_not_ok (env : MonEnv) (st : MonitorState)
    (connAddr : Addr) (off : Nat) (o : IsMasterReply) (ping : Nat) (nd : Node)
    (hnd : st.nodes.get? off = some nd)
    (hp : env.probe st.clock connAddr = .reply o ping)
    (hm : o.setName ≠ some st.name) :
    (_checkConnection env st connAddr (off : Int)).2.1 = false ∧
    ((_checkConnection env st connAddr (off : Int)).1.nodes.get? off).map
        Node.ok = some false ∧
    ((_checkConnection env st connAddr (off : Int)).1.nodes.get? off).map
        Node.lastReply = some (some o) ∧
    (∀ j, j ≠ off →
      (_checkConnection env st connAddr (off : Int)).1.nodes.get? j =
        st.nodes.get? j) ∧
    (_checkConnection env st connAddr (off : Int)).1.master = st.master ∧
    (_checkConnection env st connAddr (off : Int)).1.nextSlave = st.nextSlave := by
  rw [_checkConnection_mismatch_eq env st connAddr (off : Int) o ping hp hm]
  have hnd1 : ({ st with clock := st.clock + 1 } : MonitorState).nodes.get? off =
      some nd := hnd
  have hmid := condUpdate_get_self (f := fun nd => { nd with lastReply := some o }) hnd1
  refine ⟨rfl, ?_, ?_, ?_, ?_, ?_⟩
  · rw [condUpdate_get_self (f := fun nd => { nd with ok := false }) hmid]
    rfl
  · rw [condUpdate_get_self (f := fun nd => { nd with ok := false }) hmid]
    rfl
  · intro j hj
    rw [condUpdate_get_other off hj, condUpdate_get_other off hj]
  · rw [condUpdate_master, condUpdate_master]
  · rw [condUpdate_nextSlave, condUpdate_nextSlave]

/-- Witness for C4 (amended): the concrete mismatched probe of node
a:27017 in stC4 returns false and leaves node a:27017 not-ok with the
offending reply recorded, node b:27017 untouched. -/
theorem C4_mismatch_marks_not_ok_witness :
    (_checkConnection envC4 stC4 "a:27017" ((0 : Nat) : Int)).2.1 = false ∧
    ((_checkConnection envC4 stC4 "a:27017" ((0 : Nat) : Int)).1.nodes.get? 0).map
        Node.ok = some false ∧
    (_checkConnection envC4 stC4 "a:27017" ((0 : Nat) : Int)).1.nodes.get? 1 =
      stC4.nodes.get? 1 :=
  have h := C4_mismatch_marks_not_ok envC4 stC4 "a:27017" 0 replyOther 1
    { addr := "a:27017", ok := true, secondary := true }
    (by decide) (by decide) (by decide)
  ⟨h.1, h.2.1, h.2.2.2.1 1 (by decide)⟩

/-!
C8 — empty node list and getSlave bounds.
-/

theorem checkPassAux_nil {env : MonEnv} {cas : Bool} {fuel i : Nat}
    {tqc : Bool} {nm : Int} {st : MonitorState} (h : st.nodes = []) :
    checkPassAux env cas fuel i tqc nm st = .ok ⟨st, tqc, nm, false⟩ := by
  cases fuel with
  | zero => simp [checkPassAux, h]
  | succ n => simp [checkPassAux, h]

theorem _check_nil {env : MonEnv} {cas : Bool} {st : MonitorState}
    (h : st.nodes = []) : _check env cas st = .ok st := by
  simp [_check, checkPassAux_nil h]

theorem check_nil_pos {env : MonEnv} {cas : Bool} (st : MonitorState)
    (h : st.nodes = []) (hm : 0 ≤ st.master) :
    check env cas st = .error .oob := by
  unfold check
  rw [if_pos hm, h]
  rfl

theorem check_nil_neg {env : MonEnv} {cas : Bool} (st : MonitorState)
    (h : st.nodes = []) (hm : ¬ 0 ≤ st.master) :
    check env cas st = .ok st := by
  unfold check
  rw [if_neg hm]
  exact _check_nil h

theorem getSlaveLoop_nil :
    ∀ (k : Nat) (env : MonEnv) (st : MonitorState), st.nodes = [] →
      getSlaveLoop env k st = .error .oob
  | 0, env, st, h => by rw [getSlaveLoop, h]; rfl
  | k + 1, env, st, h => by
      rw [getSlaveLoop]
      have hsp : slavePass st.nodes st.master (k == 0) st.nextSlave =
          (st.nextSlave, none) := by
        rw [slavePass, h]; rfl
      rw [hsp]
      dsimp only
      by_cases hm : 0 ≤ st.master
      · rw [check_nil_pos { st with nextSlave := st.nextSlave } h hm]
      · rw [check_nil_neg { st with nextSlave := st.nextSlave } h hm]
        exact getSlaveLoop_nil k env _ h

/-- C8: the monitor constructor silently skips every seed whose initial
connect fails, so a monitor can be built (no error) with an empty node
list; and the accesses of getSlave are in bounds exactly when the node
list is non-empty: on an empty list getSlave reaches the out-of-range
read of nodes[0] (the cursor update is never executed, as the source loop
body is guarded by the node count), and a successful getSlave implies the
node list was non-empty. -/
theorem C8_empty_nodes_getSlave :
    mkMonitor envFail "rs" ["s1:1", "s2:2"] = .ok stEmpty ∧
    stEmpty.nodes = [] ∧
    (∀ env st, st.nodes = [] → getSlave env st = .error .oob) ∧
    (∀ env st p, getSlave env st = .ok p → st.nodes ≠ []) := by
  refine ⟨by decide, rfl, ?_, ?_⟩
  · intro env st h
    exact getSlaveLoop_nil 3 env st h
  · intro env st p hok hnil
    unfold getSlave at hok
    rw [getSlaveLoop_nil 3 env st hnil] at hok
    cases hok

/-- Witness for C8: getSlave on the empty monitor state hits the
out-of-range access. -/
theorem C8_empty_nodes_getSlave_witness :
    getSlave envFail stEmpty = .error .oob :=
  C8_empty_nodes_getSlave.2.2.1 envFail stEmpty rfl

/-!
C3 — getMaster.  First the facts that probing never writes master and
only appends nodes, then the in-bounds preservation through _check.
-/

theorem grows_refl (s : MonitorState) : grows s s := ⟨Nat.le_refl _, rfl⟩

theorem grows_condUpdate2 {s t : MonitorState} (h : grows s t) (off : Int)
    (f : Node → Node) : grows s (condUpdate t off f) :=
  ⟨by rw [condUpdate_length]; exact h.1, by rw [condUpdate_master]; exact h.2⟩

theorem grows_checkHostsStep {s t : MonitorState} (h : grows s t) (x : String) :
    grows s (_checkHostsStep t x) := by
  unfold _checkHostsStep
  split
  · exact h
  · exact ⟨Nat.le_trans h.1 (by simp), h.2⟩

theorem grows_checkHosts {s t : MonitorState} (h : grows s t) (l : List String) :
    grows s (_checkHosts t l) := by
  unfold _checkHosts
  induction l generalizing t with
  | nil => exact h
  | cons x rest ih =>
      rw [List.foldl_cons]
      exact ih (grows_checkHostsStep h x)

theorem checkStatusStep_length (ns : List Node) (m : StatusMember) :
    (checkStatusStep ns m).length = ns.length := by
  unfold checkStatusStep
  split
  · rfl
  · split
    · simp
    · rfl

theorem checkStatusFold_length (ns : List Node) (members : List StatusMember) :
    (checkStatusFold ns members).length = ns.length := by
  unfold checkStatusFold
  induction members generalizing ns with
  | nil => rfl
  | cons m rest ih =>
      rw [List.foldl_cons, ih, checkStatusStep_length]

theorem grows_statusWrap {s t : MonitorState} (h : grows s t)
    (members : List StatusMember) :
    grows s { t with nodes := checkStatusFold t.nodes members } :=
  ⟨by
    rw [show ({ t with nodes := checkStatusFold t.nodes members } :
        MonitorState).nodes = checkStatusFold t.nodes members from rfl,
      checkStatusFold_length]
    exact h.1, h.2⟩

theorem grows_clockBump (s : MonitorState) (c : Nat) :
    grows s { s with clock := c } := ⟨Nat.le_refl _, rfl⟩

/-- A probe (_checkConnection) only appends nodes and never writes the
master index. -/
theorem _checkConnection_grows (env : MonEnv) (st : MonitorState) (a : Addr)
    (off : Int) : grows st (_checkConnection env st a off).1 := by
  unfold _checkConnection
  dsimp only
  cases hp : env.probe st.clock a with
  | ex =>
      dsimp only
      exact grows_condUpdate2 (grows_clockBump st _) off _
  | reply o ping =>
      dsimp only
      split
      · exact grows_condUpdate2 (grows_condUpdate2 (grows_clockBump st _) off _)
          off _
      · split <;> split <;> split <;>
          · first
            | exact grows_statusWrap (grows_checkHosts (grows_checkHosts
                (grows_condUpdate2 (grows_condUpdate2 (grows_clockBump st _)
                  off _) off _) _) _) _
            | exact grows_checkHosts (grows_checkHosts (grows_condUpdate2
                (grows_condUpdate2 (grows_clockBump st _) off _) off _) _) _
            | exact grows_statusWrap (grows_checkHosts (grows_condUpdate2
                (grows_condUpdate2 (grows_clockBump st _) off _) off _) _) _
            | exact grows_checkHosts (grows_condUpdate2 (grows_condUpdate2
                (grows_clockBump st _) off _) off _) _
            | exact grows_statusWrap (grows_condUpdate2 (grows_condUpdate2
                (grows_clockBump st _) off _) off _) _
            | exact grows_condUpdate2 (grows_condUpdate2 (grows_clockBump st _)
                off _) off _

/-- recordMaster keeps the master index in bounds: it either writes a
valid index of the (only grown) node list or keeps the previous in-bounds
index. -/
theorem recordMaster_mib (isM : Bool) {st0 st : MonitorState} {i : Nat}
    (hg : grows st0 st) (hw : masterInBounds st0) (hi : i < st0.nodes.length) :
    masterInBounds (recordMaster st isM i) := by
  cases isM with
  | true =>
      simp only [recordMaster, if_pos]
      show ((i : Nat) : Int) < _
      have hlt : i < st.nodes.length := Nat.lt_of_lt_of_le hi hg.1
      exact_mod_cast hlt
  | false =>
      simp only [recordMaster, if_neg, Bool.false_eq_true, not_false_iff]
      show st.master < (st.nodes.length : Int)
      rw [hg.2]
      calc st0.master < (st0.nodes.length : Int) := hw
        _ ≤ (st.nodes.length : Int) := by exact_mod_cast hg.1

/-- One pass of the _check node loop keeps the master index in bounds. -/
theorem checkPassAux_mib {env : MonEnv} {cas : Bool} :
    ∀ (fuel i : Nat) (tqc : Bool) (nm : Int) (st : MonitorState) (p : PassRes),
      checkPassAux env cas fuel i tqc nm st = .ok p →
      masterInBounds st → masterInBounds p.st
  | 0, i, tqc, nm, st, p, h, hw => by
      rw [checkPassAux] at h
      split at h
      · cases h
      · cases h; exact hw
  | fuel + 1, i, tqc, nm, st, p, h, hw => by
      rw [checkPassAux] at h
      cases hg : st.nodes.get? i with
      | none => rw [hg] at h; dsimp only at h; cases h; exact hw
      | some nd =>
          rw [hg] at h
          dsimp only at h
          have hilt : i < st.nodes.length := (List.get?_eq_some.mp hg).1
          have hmib1 : masterInBounds
              (recordMaster (_checkConnection env st nd.addr (i : Int)).1
                (_checkConnection env st nd.addr (i : Int)).2.1 i) :=
            recordMaster_mib (_checkConnection env st nd.addr (i : Int)).2.1
              (_checkConnection_grows env st nd.addr (i : Int)) hw hilt
          split at h
          · cases h; exact hmib1
          · split at h
            · split at h
              · next x hfx =>
                  split at h
                  · next ndx hgx =>
                      have hxlt : x < (recordMaster
                          (_checkConnection env st nd.addr (i : Int)).1
                          (_checkConnection env st nd.addr (i : Int)).2.1
                          i).nodes.length :=
                        (List.get?_eq_some.mp hgx).1
                      have hmib2 := recordMaster_mib
                        ((_checkConnection env
                          (recordMaster (_checkConnection env st nd.addr (i : Int)).1
                            (_checkConnection env st nd.addr (i : Int)).2.1 i)
                          ndx.addr (x : Int)).2.1)
                        (_checkConnection_grows env _ ndx.addr (x : Int))
                        hmib1 hxlt
                      split at h
                      · cases h; exact hmib2
                      · exact checkPassAux_mib fuel (i + 1) true _ _ p h hmib2
                  · next hgx0 =>
                      exact checkPassAux_mib fuel (i + 1) true _ _ p h hmib1
              · exact checkPassAux_mib fuel (i + 1) tqc _ _ p h hmib1
            · exact checkPassAux_mib fuel (i + 1) tqc _ _ p h hmib1

/-- A successful _check keeps the master index in bounds. -/
theorem _check_mib {env : MonEnv} {cas : Bool} {st st1 : MonitorState}
    (h : _check env cas st = .ok st1) (hw : masterInBounds st) :
    masterInBounds st1 := by
  unfold _check at h
  cases h1 : checkPassAux env cas env.fuel 0 false (-1) st with
  | error e => rw [h1] at h; cases h
  | ok p1 =>
      rw [h1] at h
      dsimp only at h
      have hp1 := checkPassAux_mib env.fuel 0 false (-1) st p1 h1 hw
      split at h
      · cases h; exact hp1
      · split at h
        · cases h; exact hp1
        · cases h2 : checkPassAux env cas env.fuel 0 p1.tqc p1.newMaster p1.st with
          | error e => rw [h2] at h; cases h
          | ok p2 =>
              rw [h2] at h
              cases h
              exact checkPassAux_mib env.fuel 0 p1.tqc p1.newMaster p1.st p2 h2 hp1

/-- C3: getMaster returns the cached nodes[master] without probing (for
every oracle, with the state unchanged) whenever master is a valid index
and that node is still ok; otherwise it runs _check(false) and, given
that check finished with state st1, it raises 10009 if and only if
st1.master is still negative, and when it does not raise it returns
st1.nodes[st1.master].addr.  Requires the source invariant that the
incoming master index is below the node count. -/
theorem C3_getMaster_spec (env : MonEnv) (st : MonitorState)
    (hwf : masterInBounds st) :
    (∀ nd, 0 ≤ st.master → st.nodes.get? st.master.toNat = some nd →
        nd.ok = true → getMaster env st = .ok (st, nd.addr)) ∧
    ((0 ≤ st.master → ∀ nd, st.nodes.get? st.master.toNat = some nd →
        nd.ok = false) →
      ∀ st1, _check env false st = .ok st1 →
        (getMaster env st = .error (.u 10009) ↔ st1.master < 0) ∧
        (0 ≤ st1.master → ∃ nd, st1.nodes.get? st1.master.toNat = some nd ∧
            getMaster env st = .ok (st1, nd.addr))) := by
  constructor
  · intro nd hm hnd hok
    unfold getMaster
    rw [if_pos hm, hnd]
    dsimp only
    rw [if_pos hok]
  · intro hnotok st1 hchk
    have hmib1 : masterInBounds st1 := _check_mib hchk hwf
    have hslow : getMaster env st = getMasterSlow env st := by
      unfold getMaster
      by_cases hm : 0 ≤ st.master
      · rw [if_pos hm]
        have hlt : st.master.toNat < st.nodes.length := by
          have := hwf
          unfold masterInBounds at this
          omega
        obtain ⟨nd, hnd⟩ : ∃ nd, st.nodes.get? st.master.toNat = some nd := by
          cases hq : st.nodes.get? st.master.toNat with
          | none =>
              exfalso
              rw [List.get?_eq_getElem?, List.getElem?_eq_getElem hlt] at hq
              cases hq
          | some nd => exact ⟨nd, rfl⟩
        rw [hnd]
        dsimp only
        rw [if_neg]
        rw [hnotok hm nd hnd]
        simp
      · rw [if_neg hm]
    rw [hslow]
    unfold getMasterSlow
    rw [hchk]
    dsimp only
    by_cases hm1 : 0 ≤ st1.master
    · rw [if_pos hm1]
      have hlt1 : st1.master.toNat < st1.nodes.length := by
        unfold masterInBounds at hmib1
        omega
      obtain ⟨nd1, hnd1⟩ : ∃ nd, st1.nodes.get? st1.master.toNat = some nd := by
        cases hq : st1.nodes.get? st1.master.toNat with
        | none =>
            exfalso
            rw [List.get?_eq_getElem?, List.getElem?_eq_getElem hlt1] at hq
            cases hq
        | some nd => exact ⟨nd, rfl⟩
      rw [hnd1]
      constructor
      · constructor
        · intro hfalse; cases hfalse
        · intro hneg; omega
      · intro _; exact ⟨nd1, rfl, rfl⟩
    · rw [if_neg hm1]
      constructor
      · constructor
        · intro _; omega
        · intro _; rfl
      · intro hpos; exact absurd hpos hm1

/-- Witness for C3: in the rotation topology the cached primary p:1 is ok
and getMaster returns it with no state change. -/
theorem C3_getMaster_spec_witness : getMaster envC1 stS3 = .ok (stS3, "p:1") :=
  (C3_getMaster_spec envC1 stS3
    (show stS3.master < (stS3.nodes.length : Int) by decide)).1
    nP (by decide) (by decide) rfl

/-!
C9, C10, C2 — the facade: checkMaster frame facts, auth atomicity, and
the two checkResponse contracts.
-/

/-- The reconnect tail of checkMaster never touches the cached
credentials, the pipeline state, or the cached secondary connection. -/
theorem checkMasterReconnect_frame {env : ClientEnv} {st st1 : RSClientState}
    {c : Nat} (h : checkMasterReconnect env st = .ok (st1, c)) :
    st1.auths = st.auths ∧ st1.lazy = st.lazy ∧ st1.slaveConn = st.slaveConn := by
  unfold checkMasterReconnect at h
  cases hg : getMaster env.mon st.monitor with
  | error e => rw [hg] at h; cases h
  | ok pr =>
      rcases pr with ⟨mon2, h2⟩
      rw [hg] at h
      dsimp only at h
      split at h
      · cases h
        exact ⟨rfl, rfl, rfl⟩
      · cases h

/-- checkMaster never touches the cached credentials, the pipeline state,
or the cached secondary connection. -/
theorem checkMaster_frame {env : ClientEnv} {st st1 : RSClientState} {c : Nat}
    (h : checkMaster env st = .ok (st1, c)) :
    st1.auths = st.auths ∧ st1.lazy = st.lazy ∧ st1.slaveConn = st.slaveConn := by
  unfold checkMaster at h
  cases hg : getMaster env.mon st.monitor with
  | error e => rw [hg] at h; cases h
  | ok pr =>
      rcases pr with ⟨mon1, hh⟩
      rw [hg] at h
      dsimp only at h
      cases hmc : st.masterConn with
      | none =>
          rw [hmc] at h
          dsimp only at h
          have hfr := checkMasterReconnect_frame h
          exact ⟨hfr.1, hfr.2.1, hfr.2.2⟩
      | some mc =>
          rw [hmc] at h
          dsimp only at h
          split at h
          · split at h
            · cases h
              exact ⟨rfl, rfl, rfl⟩
            · have hfr := checkMasterReconnect_frame h
              exact ⟨hfr.1, hfr.2.1, hfr.2.2⟩
          · have hfr := checkMasterReconnect_frame h
            exact ⟨hfr.1, hfr.2.1, hfr.2.2⟩

/-- C9: auth is atomic with respect to the credential cache: when the
primary rejects the credential, auth returns false and the auths list is
unchanged; the credential is appended exactly when the primary accepts
it. -/
theorem C9_auth_atomic (env : ClientEnv) (st : RSClientState) (a : AuthInfo) :
    (∀ st1, DBClientReplicaSet.auth env st a = .ok (st1, false) →
        st1.auths = st.auths) ∧
    (∀ st1, DBClientReplicaSet.auth env st a = .ok (st1, true) →
        st1.auths = st.auths ++ [a]) := by
  constructor
  · intro st1 h
    unfold DBClientReplicaSet.auth at h
    cases hcm : checkMaster env st with
    | error e => rw [hcm] at h; cases h
    | ok pr =>
        rcases pr with ⟨stm, m⟩
        rw [hcm] at h
        dsimp only at h
        have hfr := checkMaster_frame hcm
        split at h
        · cases h
        · cases h
          exact hfr.1
  · intro st1 h
    unfold DBClientReplicaSet.auth at h
    cases hcm : checkMaster env st with
    | error e => rw [hcm] at h; cases h
    | ok pr =>
        rcases pr with ⟨stm, m⟩
        rw [hcm] at h
        dsimp only at h
        have hfr := checkMaster_frame hcm
        split at h
        · cases h
          show stm.auths ++ [a] = st.auths ++ [a]
          rw [hfr.1]
        · cases h

/-- Witness for C9: under the rejecting oracle the concrete auth call
returns false and leaves the one cached credential list unchanged. -/
theorem C9_auth_atomic_witness :
    (DBClientReplicaSet.auth envRej stAuth credY = .ok (stAuth, false)) ∧
    stAuth.auths = stAuth.auths :=
  ⟨by decide, (C9_auth_atomic envRej stAuth credY).1 stAuth (by decide)⟩

/-- C10: checkResponse with a null retry out-parameter does no retry
bookkeeping and changes no pipeline state: with a recorded last pipelined
connection it delegates to it and the client state is fully unchanged;
otherwise it delegates to the connection checkMaster returns (whose state
change leaves the pipeline state intact), propagating checkMaster
failures. -/
theorem C10_checkResponse_null_retry (env : ClientEnv) (st : RSClientState)
    (doc : DocInfo) (n : Int) :
    (∀ c, st.lazy._lastClient = some c →
        checkResponse env st doc n false = .ok (st, false, [.delegatedTo c])) ∧
    (st.lazy._lastClient = none →
      (∀ st1 m, checkMaster env st = .ok (st1, m) →
          checkResponse env st doc n false = .ok (st1, false, [.delegatedTo m]) ∧
          st1.lazy = st.lazy) ∧
      (∀ e, checkMaster env st = .error e →
          checkResponse env st doc n false = .error e)) := by
  constructor
  · intro c hc
    unfold checkResponse
    rw [if_pos (by decide : ((!false : Bool) = true))]
    rw [hc]
  · intro hnone
    constructor
    · intro st1 m hcm
      refine ⟨?_, (checkMaster_frame hcm).2.1⟩
      unfold checkResponse
      rw [if_pos (by decide : ((!false : Bool) = true))]
      rw [hnone]
      dsimp only
      rw [hcm]
    · intro e hcm
      unfold checkResponse
      rw [if_pos (by decide : ((!false : Bool) = true))]
      rw [hnone]
      dsimp only
      rw [hcm]

/-- Witness for C10: with the last pipelined connection recorded (id 1),
the null-retry checkResponse delegates to it and changes nothing. -/
theorem C10_checkResponse_null_retry_witness :
    checkResponse envCl stCR docErr (-1) false =
      .ok (stCR, false, [.delegatedTo 1]) :=
  (C10_checkResponse_null_retry envCl stCR docErr (-1)).1 1 rfl

/-- C2: after a pipelined slave-ok query (lastOp is dbQuery, slaveOk set,
a last client recorded), checkResponse with a retry out-parameter signals
a retry exactly when the reply marks a failure (nReturned = -1, or a
single returned document carrying error code 13436) and the retry counter
is below 3; in that case the counter is incremented, and isntSecondary is
called when the last say went to the cached secondary connection,
isntMaster when it went to the cached primary connection. -/
theorem C2_checkResponse_retry_spec (env : ClientEnv) (st : RSClientState)
    (doc : DocInfo) (n : Int) (lc : Nat)
    (hlc : st.lazy._lastClient = some lc)
    (hop : st.lazy._lastOp = dbQuery)
    (hok : st.lazy._slaveOk = true) :
    ∀ st1 r evs, checkResponse env st doc n true = .ok (st1, r, evs) →
      ((r = true) ↔
        ((n = -1 ∨ (n = 1 ∧ carriesNotMasterOrSecondary doc = true)) ∧
          st.lazy._retries < 3)) ∧
      (r = true →
        st1.lazy._retries = st.lazy._retries + 1 ∧
        (st.slaveConn = some lc →
            evs = [Event.isntSecondaryCalled] ∧ st1.slaveConn = none ∧
            st1.monitor = notifySlaveFailure st.monitor st.slaveHost) ∧
        (st.slaveConn ≠ some lc → st.masterConn = some lc →
            evs = [Event.isntMasterCalled] ∧ st1.masterConn = none ∧
            st1.monitor = notifyFailure st.monitor st.masterHost)) := by
  intro st1 r evs h
  unfold checkResponse at h
  rw [if_neg (by decide : ¬ ((!true : Bool) = true))] at h
  rw [hlc] at h
  dsimp only at h
  have hmain : ∀ (hdisj : n = -1 ∨ (n = 1 ∧ carriesNotMasterOrSecondary doc = true))
      (h2 : ((fun p : RSClientState × List Event =>
          if p.1.lazy._retries < 3 then
            (Except.ok ({ p.1 with lazy := { p.1.lazy with
                _retries := p.1.lazy._retries + 1 } }, true, p.2) :
              Except MonErr (RSClientState × Bool × List Event))
          else .ok (p.1, false, p.2))
        (if st.slaveConn = some lc then
            (isntSecondary st, [Event.isntSecondaryCalled])
          else if st.masterConn = some lc then
            (isntMaster st, [Event.isntMasterCalled])
          else (st, [Event.warnedUnknownClient]))) = .ok (st1, r, evs)),
      ((r = true) ↔
        ((n = -1 ∨ (n = 1 ∧ carriesNotMasterOrSecondary doc = true)) ∧
          st.lazy._retries < 3)) ∧
      (r = true →
        st1.lazy._retries = st.lazy._retries + 1 ∧
        (st.slaveConn = some lc →
            evs = [Event.isntSecondaryCalled] ∧ st1.slaveConn = none ∧
            st1.monitor = notifySlaveFailure st.monitor st.slaveHost) ∧
        (st.slaveConn ≠ some lc → st.masterConn = some lc →
            evs = [Event.isntMasterCalled] ∧ st1.masterConn = none ∧
            st1.monitor = notifyFailure st.monitor st.masterHost)) := by
    intro hdisj h2
    by_cases hsc : st.slaveConn = some lc
    · rw [if_pos hsc] at h2
      dsimp only [isntSecondary, isntMaster] at h2
      by_cases hr3 : st.lazy._retries < 3
      · rw [if_pos hr3] at h2
        cases h2
        refine ⟨⟨fun _ => ⟨hdisj, hr3⟩, fun _ => rfl⟩, fun _ => ⟨rfl, ?_, ?_⟩⟩
        · intro _; exact ⟨rfl, rfl, rfl⟩
        · intro hns _; exact absurd hsc hns
      · rw [if_neg hr3] at h2
        cases h2
        refine ⟨⟨fun hf => (by cases hf), fun hrhs => absurd hrhs.2 hr3⟩,
                fun hf => (by cases hf)⟩
    · rw [if_neg hsc] at h2
      by_cases hmc : st.masterConn = some lc
      · rw [if_pos hmc] at h2
        dsimp only [isntSecondary, isntMaster] at h2
        by_cases hr3 : st.lazy._retries < 3
        · rw [if_pos hr3] at h2
          cases h2
          refine ⟨⟨fun _ => ⟨hdisj, hr3⟩, fun _ => rfl⟩, fun _ => ⟨rfl, ?_, ?_⟩⟩
          · intro hsc2; exact absurd hsc2 hsc
          · intro _ _; exact ⟨rfl, rfl, rfl⟩
        · rw [if_neg hr3] at h2
          cases h2
          refine ⟨⟨fun hf => (by cases hf), fun hrhs => absurd hrhs.2 hr3⟩,
                  fun hf => (by cases hf)⟩
      · rw [if_neg hmc] at h2
        dsimp only [isntSecondary, isntMaster] at h2
        by_cases hr3 : st.lazy._retries < 3
        · rw [if_pos hr3] at h2
          cases h2
          refine ⟨⟨fun _ => ⟨hdisj, hr3⟩, fun _ => rfl⟩, fun _ => ⟨rfl, ?_, ?_⟩⟩
          · intro hsc2; exact absurd hsc2 hsc
          · intro _ hmc2; exact absurd hmc2 hmc
        · rw [if_neg hr3] at h2
          cases h2
          refine ⟨⟨fun hf => (by cases hf), fun hrhs => absurd hrhs.2 hr3⟩,
                  fun hf => (by cases hf)⟩
  by_cases hn : n ≠ 1 ∧ n ≠ -1
  · rw [if_pos hn] at h
    cases h
    refine ⟨⟨fun hf => (by cases hf), fun hrhs => ?_⟩, fun hf => (by cases hf)⟩
    rcases hrhs.1 with h1 | h1
    · exact absurd h1 hn.2
    · exact absurd h1.1 hn.1
  · rw [if_neg hn] at h
    have hn2 : n = 1 ∨ n = -1 := by
      rcases not_and_or.mp hn with h1 | h1
      · exact Or.inl (not_not.mp h1)
      · exact Or.inr (not_not.mp h1)
    rw [if_pos ⟨hop, hok⟩] at h
    rcases hn2 with rfl | rfl
    · rw [if_pos rfl] at h
      by_cases hcar : carriesNotMasterOrSecondary doc = true
      · rw [if_pos (Or.inr hcar)] at h
        exact hmain (Or.inr ⟨rfl, hcar⟩) h
      · rw [if_neg (by simp [hcar] :
            ¬ ((1 : Int) = -1 ∨ carriesNotMasterOrSecondary doc = true))] at h
        cases h
        refine ⟨⟨fun hf => (by cases hf), fun hrhs => ?_⟩,
                fun hf => (by cases hf)⟩
        rcases hrhs.1 with h1 | h1
        · cases h1
        · exact absurd h1.2 hcar
    · rw [if_neg (by decide : ¬ ((-1 : Int) = 1))] at h
      rw [if_pos (Or.inl rfl)] at h
      exact hmain (Or.inl rfl) h

/-- Witness for C2: the pipelined slave-ok query whose recv failed
(nReturned = -1) with the last say on the cached secondary: the retry is
signalled, the counter goes from 0 to 1, and isntSecondary was called. -/
theorem C2_checkResponse_retry_spec_witness :
    ((true = true) ↔
      ((((-1 : Int) = -1) ∨ (((-1 : Int) = 1) ∧
          carriesNotMasterOrSecondary docErr = true)) ∧
        stCR.lazy._retries < 3)) ∧
    (true = true →
      stCR2.lazy._retries = stCR.lazy._retries + 1 ∧
      (stCR.slaveConn = some 1 →
          [Event.isntSecondaryCalled] = [Event.isntSecondaryCalled] ∧
          stCR2.slaveConn = none ∧
          stCR2.monitor = notifySlaveFailure stCR.monitor stCR.slaveHost) ∧
      (stCR.slaveConn ≠ some 1 → stCR.masterConn = some 1 →
          [Event.isntSecondaryCalled] = [Event.isntMasterCalled] ∧
          stCR2.masterConn = none ∧
          stCR2.monitor = notifyFailure stCR.monitor stCR.masterHost)) :=
  C2_checkResponse_retry_spec envCl stCR docErr (-1) 1 rfl rfl rfl stCR2 true
    [Event.isntSecondaryCalled] (by decide)

/-!
C7 — registry idempotence and non-eviction.
-/

/-- After a successful get, the registry maps the name to the returned
handle. -/
theorem lookupSet_after_get {env : MonEnv} {reg reg1 : RegistryState}
    {name : String} {servers : List Addr} {id1 : Nat}
    (h : ReplicaSetMonitor.get env reg name servers = .ok (reg1, id1)) :
    lookupSet reg1 name = some id1 := by
  unfold ReplicaSetMonitor.get at h
  cases hl : lookupSet reg name with
  | some id => rw [hl] at h; cases h; exact hl
  | none =>
      rw [hl] at h
      cases hmk : mkMonitor env name servers with
      | error e => rw [hmk] at h; cases h
      | ok m =>
          rw [hmk] at h
          cases h
          unfold lookupSet at hl
          have hnone : reg.sets.find? (fun p => p.1 == name) = none := by
            cases hf : reg.sets.find? (fun p => p.1 == name) with
            | none => rfl
            | some x => rw [hf] at hl; cases hl
          unfold lookupSet
          dsimp only
          rw [List.find?_append, hnone]
          simp [List.find?]

/-- A single registry operation never drops an existing registration. -/
theorem lookupSet_regStep {reg : RegistryState} {name : String} {id : Nat}
    (h : lookupSet reg name = some id) (op : RegOp) :
    lookupSet (regStep reg op) name = some id := by
  cases op with
  | opLookup name2 => exact h
  | opGet env name2 servers =>
      unfold regStep
      dsimp only
      cases hg : ReplicaSetMonitor.get env reg name2 servers with
      | error e => exact h
      | ok pr =>
          rcases pr with ⟨reg2, id2⟩
          dsimp only
          unfold ReplicaSetMonitor.get at hg
          cases hl : lookupSet reg name2 with
          | some idx => rw [hl] at hg; cases hg; exact h
          | none =>
              rw [hl] at hg
              cases hmk : mkMonitor env name2 servers with
              | error e => rw [hmk] at hg; cases hg
              | ok m =>
                  rw [hmk] at hg
                  cases hg
                  unfold lookupSet at h
                  unfold lookupSet
                  dsimp only
                  cases hf : reg.sets.find? (fun p => p.1 == name) with
                  | none => rw [hf] at h; cases h
                  | some x =>
                      rw [hf] at h
                      rw [List.find?_append, hf]
                      exact h

/-- No sequence of registry operations drops an existing registration. -/
theorem lookupSet_regRun {reg : RegistryState} {name : String} {id : Nat}
    (h : lookupSet reg name = some id) :
    ∀ ops : List RegOp, lookupSet (regRun reg ops) name = some id
  | [] => h
  | op :: rest => by
      unfold regRun
      rw [List.foldl_cons]
      exact lookupSet_regRun (lookupSet_regStep h op) rest

/-- C7: ReplicaSetMonitor.get is idempotent in the set name — after a
successful get, a second get with the same name returns the same handle
and leaves the registry unchanged, for any oracle and any (even empty)
seed list, since nothing is constructed — and a monitor once registered
is never removed by any sequence of registry operations. -/
theorem C7_get_idempotent :
    (∀ env1 reg name servers reg1 id1,
        ReplicaSetMonitor.get env1 reg name servers = .ok (reg1, id1) →
        ∀ env2 servers2,
          ReplicaSetMonitor.get env2 reg1 name servers2 = .ok (reg1, id1)) ∧
    (∀ reg name id, lookupSet reg name = some id →
        ∀ ops, lookupSet (regRun reg ops) name = some id) := by
  constructor
  · intro env1 reg name servers reg1 id1 h env2 servers2
    have hl := lookupSet_after_get h
    unfold ReplicaSetMonitor.get
    rw [hl]
  · intro reg name id h ops
    exact lookupSet_regRun h ops

/-- Witness for C7: creating the rs monitor in an empty registry and
fetching it again with a different oracle and an empty seed list returns
the same handle 0 and the unchanged registry. -/
theorem C7_get_idempotent_witness :
    ReplicaSetMonitor.get envC1 reg1 "rs" [] = .ok (reg1, 0) :=
  C7_get_idempotent.1 envFail ⟨[], []⟩ "rs" ["s1:1"] reg1 0 (by decide)
    envC1 []

end MongoRS
